import Mathlib

/-!
Verification of the MI-Bot interview controller (src/src/App.tsx).

The React component is embedded with render-closure semantics.  Every render
of the component creates a fresh set of closures (and a fresh
`SpeechRecognition` instance); a handler that runs later — a recognition
result, an utterance's `onend`, the 800 ms `setTimeout` callback, the
continuation of the `fetch` — reads the `const` state values captured by the
render that created it, not the current state.  A captured environment is a
`Renv` (render id plus the four state values the handlers read).  State
setters write the current state in `AppState`; the functional updater
`setQuestionCount(prev => prev + 1)` reads the current value; direct setters
such as `setConversation([...updatedConversation, ...])` write the value
computed from the capturing render's snapshot.  Button clicks run the latest
render's closures, so they capture the state as it was before the click.
After each event the component re-renders (`render` bumps the render id), so
an instance armed by an earlier render is never the current render's
instance.
-/

namespace MIBot

/-- Speaker of a conversation turn; the source uses the string literals
"user" and "model" in the `role` field of a message. -/
inductive Role where
  | user
  | model
deriving DecidableEq, Repr

/-- One turn of the transcript: `{ role, text }` in the source. -/
structure Message where
  role : Role
  text : String
deriving DecidableEq, Repr

/-- One element of the request body's `contents` array:
`{ role, parts: [{ text }] }`; a part is just its text string. -/
structure GContent where
  role : String
  parts : List String
deriving DecidableEq, Repr

/-- JSON values, for the parsed response `data` of `res.json()`. -/
inductive J where
  | null
  | bool (b : Bool)
  | num (n : Int)
  | str (s : String)
  | arr (elems : List J)
  | obj (fields : List (String × J))

/-- Key lookup in a JSON object's field list. -/
def lookupKv : List (String × J) → String → Option J
  | [], _ => none
  | (k, v) :: rest, key => if k == key then some v else lookupKv rest key

/-- JavaScript optional member access `x?.key`: a field of an object, else
`undefined` (`none`). -/
def jGet : J → String → Option J
  | J.obj kvs, key => lookupKv kvs key
  | _, _ => none

/-- JavaScript optional index access `x?.[i]` on an array, else `undefined`. -/
def jIndex : J → Nat → Option J
  | J.arr l, i => l.get? i
  | _, _ => none

/-- JavaScript truthiness of a JSON value (`undefined` is handled by `Option`
at the use site): `null`, `false`, `0` and `""` are falsy. -/
def jsTruthy : J → Bool
  | J.null => false
  | J.bool b => b
  | J.num n => n != 0
  | J.str s => s != ""
  | J.arr _ => true
  | J.obj _ => true

mutual

/-- JavaScript `String(v)` coercion of a JSON value, used when a truthy
non-string reply value reaches display/speech. -/
def jsDisplayString : J → String
  | J.null => "null"
  | J.bool true => "true"
  | J.bool false => "false"
  | J.num n => toString n
  | J.str s => s
  | J.arr l => jsDisplayElems l
  | J.obj _ => "[object Object]"

/-- `String(array)` joins the coerced elements with commas. -/
def jsDisplayElems : List J → String
  | [] => ""
  | [x] => jsDisplayString x
  | x :: y :: rest => jsDisplayString x ++ "," ++ jsDisplayElems (y :: rest)

end

/-- The optional chain `data?.candidates?.[0]?.content?.parts?.[0]?.text`
from `sendToGemini`. -/
def extractTextField (data : J) : Option J :=
  (((((jGet data "candidates").bind fun c => jIndex c 0).bind fun c =>
      jGet c "content").bind fun c => jGet c "parts").bind fun p =>
      jIndex p 0).bind fun p => jGet p "text"

/-- The literal fallback reply of `sendToGemini`. -/
def geminiFallback : String := "Sorry, I couldn't understand."

/-- `data?....?.text || "Sorry, I couldn't understand."`: the extracted text
field if present and truthy, otherwise the fallback string. -/
def aiReplyOf (data : J) : String :=
  match extractTextField data with
  | some v => if jsTruthy v then jsDisplayString v else geminiFallback
  | none => geminiFallback

/-- Outcome of the `fetch`/`res.json()` pair: a parsed JSON value, or a thrown
transport/parse error (the `catch` branch). -/
inductive FetchOutcome where
  | ok (data : J)
  | error

/-- The environment captured by one render's closures: the render id (each
render also creates its own `SpeechRecognition` instance, identified by this
id) and the `const` state values the handlers read. -/
structure Renv where
  rid : Nat
  conversation : List Message
  questionCount : Nat
  isProcessing : Bool
  isInterviewActive : Bool
deriving DecidableEq, Repr

/-- A queued utterance together with its `onend` closure's environment (the
render whose `speak` created it). -/
structure Utter where
  text : String
  env : Renv
deriving DecidableEq, Repr

/-- An in-flight request: the environment of the render whose `sendToGemini`
issued it, and the `updatedConversation` local computed at call time (the
continuation writes the transcript from this snapshot). -/
structure Req where
  env : Renv
  updated : List Message
deriving DecidableEq, Repr

/-- The component's state: the six `useState` hooks (current values), the
presence of a speech engine, the current render id, and the pending
platform callbacks, each carrying its captured environment: armed
recognition instances, the speech-synthesis queue, scheduled 800 ms
restart timers, in-flight requests, and a log of issued request bodies. -/
structure AppState where
  conversation : List Message
  userText : String
  aiText : String
  questionCount : Nat
  isProcessing : Bool
  isInterviewActive : Bool
  hasRecognition : Bool
  currentRid : Nat
  armedListeners : List Renv
  speechQueue : List Utter
  pendingTimers : List Renv
  inFlightReqs : List Req
  requestLog : List (List GContent)
deriving DecidableEq, Repr

/-- The environment a button-click handler runs with: the latest render's
closures, capturing the state as it is before the click's own updates. -/
def envOf (s : AppState) : Renv :=
  ⟨s.currentRid, s.conversation, s.questionCount, s.isProcessing, s.isInterviewActive⟩

/-- `stopListening` of render `env`: `recognition?.stop()` stops that
render's own instance only; armed instances from other renders are not
touched. -/
def stopListening (env : Renv) (s : AppState) : AppState :=
  if s.hasRecognition = true then
    { s with armedListeners := s.armedListeners.filter (fun l => l.rid != env.rid) }
  else s

/-- `startListening` of render `env`: `if (recognition && !isProcessing &&
isInterviewActive) recognition.start()` — the flags are the captured ones.
`start()` on an already-started instance throws (nothing else happens). -/
def startListening (env : Renv) (s : AppState) : AppState :=
  if s.hasRecognition = true ∧ env.isProcessing = false ∧ env.isInterviewActive = true then
    if s.armedListeners.any (fun l => l.rid == env.rid) then s
    else { s with armedListeners := s.armedListeners ++ [env] }
  else s

/-- `speak(text)` of render `env`: returns at once when the captured
`isInterviewActive` is false; otherwise stops that render's instance and
queues the utterance (whose `onend` captures the same environment) on the
global `speechSynthesis`. -/
def speak (env : Renv) (text : String) (s : AppState) : AppState :=
  if env.isInterviewActive = false then s
  else
    let s1 := stopListening env s
    { s1 with speechQueue := s1.speechQueue ++ [⟨text, env⟩] }

/-- The template literal bound to `systemPrompt` in `sendToGemini`. -/
def systemPromptText : String :=
  "\nYou are an AI interviewer.\n- Ask one unique question at a time.\n- Never repeat a previous question from this conversation.\n- After each answer, respond with a short acknowledgment, then the next question.\n- Stop after 5 total questions and thank the candidate politely.\n"

/-- The `role` string of a message as sent in the request body. -/
def roleString : Role → String
  | Role.user => "user"
  | Role.model => "model"

/-- `updatedConversation.map(msg => ({ role: msg.role, parts: [{ text: msg.text }] }))`. -/
def msgContent (m : Message) : GContent := ⟨roleString m.role, [m.text]⟩

/-- `{ role: "user", parts: [{ text: systemPrompt }] }`, the first element of
`contents`. -/
def systemContent : GContent := ⟨"user", [systemPromptText]⟩

/-- The `contents` array of the request body: the system instruction followed
by the capturing render's updated transcript, oldest turn first. -/
def requestContents (upd : List Message) : List GContent :=
  systemContent :: upd.map msgContent

/-- The synchronous prefix of `sendToGemini(message)` in render `env`, up to
the `await fetch`: the early return reads the captured flags,
`setIsProcessing(true)` writes the current state, `updatedConversation` is
built from the captured `conversation`, and the request is issued (body
appended to `requestLog`, snapshot held in the in-flight entry for the
continuation). -/
def sendToGemini (env : Renv) (message : String) (s : AppState) : AppState :=
  if env.isProcessing = true ∨ env.isInterviewActive = false then s
  else
    let upd := env.conversation ++ [⟨Role.user, message⟩]
    { s with isProcessing := true,
             inFlightReqs := s.inFlightReqs ++ [⟨env, upd⟩],
             requestLog := s.requestLog ++ [requestContents upd] }

/-- The rest of `sendToGemini` after the `await`: on a parsed response the
reply is extracted (with fallback), `setConversation` writes the snapshot
`updatedConversation` plus the model turn, `setAiText` displays the reply,
`setQuestionCount(prev => prev + 1)` increments the current value, and
`speak` runs with the issuing render's environment; on a thrown error only
`console.error`; in both cases `finally` resets `isProcessing`. -/
def geminiContinue (req : Req) (outcome : FetchOutcome) (s : AppState) : AppState :=
  match outcome with
  | FetchOutcome.ok data =>
    let reply := aiReplyOf data
    let s1 := { s with conversation := req.updated ++ [⟨Role.model, reply⟩],
                       aiText := reply,
                       questionCount := s.questionCount + 1 }
    let s2 := speak req.env reply s1
    { s2 with isProcessing := false }
  | FetchOutcome.error => { s with isProcessing := false }

/-- The literal opening question of `startInterview`. -/
def firstQuestion : String := "Hello! Let's start the interview. Tell me about yourself."

/-- `startInterview`: the four setters write the current state; the final
`speak(firstQuestion)` is the clicked render's closure and reads the
pre-click `isInterviewActive`. -/
def startInterview (s : AppState) : AppState :=
  let env := envOf s
  speak env firstQuestion
    { s with isInterviewActive := true, conversation := [],
             questionCount := 1, aiText := firstQuestion }

/-- The literal termination message of `stopInterview`. -/
def interviewEndedText : String := "Interview ended. Thank you!"

/-- `stopInterview`: deactivate, force the counter to 5, `recognition?.stop()`
on the clicked render's own instance, `speechSynthesis.cancel()` (clears the
global utterance queue), display the termination message. -/
def stopInterview (s : AppState) : AppState :=
  let env := envOf s
  let s1 := stopListening env { s with isInterviewActive := false, questionCount := 5 }
  { s1 with speechQueue := [], aiText := interviewEndedText }

/-- `recognition.onresult` of the armed instance `i`: runs with the arming
render's environment — `setUserText` writes the current state, that render's
`stopListening` stops the instance itself, and `sendToGemini` reads the
captured flags and transcript. -/
def onResult (i : Nat) (text : String) (s : AppState) : AppState :=
  match s.armedListeners.get? i with
  | none => s
  | some l =>
    let s1 := stopListening l { s with userText := text }
    sendToGemini l text s1

/-- `utterance.onend`: fires for the head of the speech queue; the guard
reads the `isInterviewActive` and `questionCount` captured when `speak`
created the utterance, and schedules that render's `startListening`. -/
def utteranceEnd (s : AppState) : AppState :=
  match s.speechQueue with
  | [] => s
  | u :: rest =>
    let s1 := { s with speechQueue := rest }
    if u.env.isInterviewActive = true ∧ u.env.questionCount < 5 then
      { s1 with pendingTimers := s1.pendingTimers ++ [u.env] }
    else s1

/-- The 800 ms timer callback: runs the scheduled render's `startListening`
(captured guards, captured instance). -/
def timerFire (s : AppState) : AppState :=
  match s.pendingTimers with
  | [] => s
  | env :: rest => startListening env { s with pendingTimers := rest }

/-- Settling of in-flight request `i` (requests may settle in any order). -/
def geminiRespond (i : Nat) (outcome : FetchOutcome) (s : AppState) : AppState :=
  match s.inFlightReqs.get? i with
  | none => s
  | some req => geminiContinue req outcome { s with inFlightReqs := s.inFlightReqs.eraseIdx i }

/-- The events the component reacts to: the two buttons, end of the current
utterance, the oldest pending restart timer, a result from armed recognition
instance `i`, and the settling of in-flight request `i`. -/
inductive Ev where
  | start
  | stop
  | utterEnd
  | timer
  | capture (i : Nat) (text : String)
  | respond (i : Nat) (outcome : FetchOutcome)

/-- The re-render after an event: a fresh render id (and with it a fresh
`SpeechRecognition` instance and fresh closures). -/
def render (s : AppState) : AppState := { s with currentRid := s.currentRid + 1 }

/-- One controller step: dispatch an event to its handler, then re-render. -/
def step (s : AppState) : Ev → AppState
  | Ev.start => render (startInterview s)
  | Ev.stop => render (stopInterview s)
  | Ev.utterEnd => render (utteranceEnd s)
  | Ev.timer => render (timerFire s)
  | Ev.capture i t => render (onResult i t s)
  | Ev.respond i o => render (geminiRespond i o s)

/-- Run a sequence of events from a state. -/
def run (s : AppState) (es : List Ev) : AppState := es.foldl step s

/-- The state of a freshly loaded page (with a speech-recognition engine
available). -/
def initState : AppState :=
  { conversation := [], userText := "", aiText := "", questionCount := 0,
    isProcessing := false, isInterviewActive := false, hasRecognition := true,
    currentRid := 0, armedListeners := [], speechQueue := [],
    pendingTimers := [], inFlightReqs := [], requestLog := [] }

/-- A well-shaped reply payload
`{candidates:[{content:{parts:[{text: t}]}}]}`. -/
def replyPayload (t : String) : J :=
  J.obj [("candidates", J.arr [J.obj [("content",
    J.obj [("parts", J.arr [J.obj [("text", J.str t)]])])]])]


/-- A captured environment of a render that saw the session active, not busy,
one question asked, empty transcript (the second click's render on a fresh
page). -/
def activeSnap : Renv := ⟨0, [], 1, false, true⟩

/-- A captured environment whose render saw the busy flag set. -/
def busySnap : Renv := ⟨0, [], 1, true, true⟩

/-- A captured environment of a render that saw the session inactive. -/
def idleSnap : Renv := ⟨0, [], 0, false, false⟩

/-- A session with one outstanding request (snapshot transcript: the
candidate's answer). -/
def awaitingState : AppState :=
  { initState with isInterviewActive := true, isProcessing := true,
                   questionCount := 1,
                   inFlightReqs := [⟨activeSnap, [⟨Role.user, "my answer"⟩]⟩] }

/-- A session awaiting a reply to "hi", with the opening question displayed. -/
def errorTurnState : AppState :=
  { initState with isInterviewActive := true, isProcessing := true,
                   questionCount := 1, aiText := "Opening question",
                   inFlightReqs := [⟨activeSnap, [⟨Role.user, "hi"⟩]⟩] }

/-- A fresh page whose busy flag is set. -/
def busyState : AppState := { initState with isProcessing := true }

/-- The environment captured by the render whose instance is armed in
`listeningState`. -/
def listenerSnap : Renv := ⟨1, [⟨Role.model, "Tell me about yourself."⟩], 1, false, true⟩

/-- An active session with one armed recognition instance from render 1. -/
def listeningState : AppState :=
  { initState with isInterviewActive := true, questionCount := 1,
                   conversation := [⟨Role.model, "Tell me about yourself."⟩],
                   currentRid := 2, armedListeners := [listenerSnap] }

/-- One interview turn as the event queue delivers it: the current question's
utterance ends, the 800 ms timer fires, the answer is captured, the reply
arrives. -/
def turnCycle (answer reply : String) : List Ev :=
  [Ev.utterEnd, Ev.timer, Ev.capture 0 answer,
   Ev.respond 0 (FetchOutcome.ok (replyPayload reply))]

/-- Start pressed twice (the first press never speaks, see C4; the second
press's `speak` sees the first press's `isInterviewActive = true` and queues
the opening question), then five full turns. -/
def c1Trace : List Ev :=
  [Ev.start, Ev.start] ++ turnCycle "a1" "q2" ++ turnCycle "a2" "q3" ++
    turnCycle "a3" "q4" ++ turnCycle "a4" "q5" ++ turnCycle "a5" "q6"

/-- The opening question ends and the restart timer arms the mic; then stop. -/
def c3Trace : List Ev := [Ev.start, Ev.start, Ev.utterEnd, Ev.timer, Ev.stop]

/-- The restart timer scheduled before stop fires after stop. -/
def c8Trace : List Ev := [Ev.start, Ev.start, Ev.utterEnd, Ev.stop, Ev.timer]

/-- An answer is captured, stop is pressed while the request is in flight,
then the reply arrives. -/
def c9Trace : List Ev :=
  [Ev.start, Ev.start, Ev.utterEnd, Ev.timer, Ev.capture 0 "a1", Ev.stop,
   Ev.respond 0 (FetchOutcome.ok (replyPayload "q2"))]

/-- Start pressed three times queues two utterances; their `onend` timers arm
the instances of two different renders; the second capture is delivered by an
instance whose render captured `isProcessing = false` while the first request
is still outstanding. -/
def c6Trace : List Ev :=
  [Ev.start, Ev.start, Ev.start, Ev.utterEnd, Ev.timer, Ev.utterEnd,
   Ev.capture 0 "a1", Ev.timer, Ev.capture 0 "a2"]

/-- Two full captures: the second request is issued by the same render whose
snapshot of the transcript is still empty. -/
def c7Trace : List Ev :=
  [Ev.start, Ev.start, Ev.utterEnd, Ev.timer, Ev.capture 0 "a1",
   Ev.respond 0 (FetchOutcome.ok (replyPayload "q2")), Ev.utterEnd, Ev.timer,
   Ev.capture 0 "a2"]


example : aiReplyOf (replyPayload "Next question?") = "Next question?" := by decide

example : aiReplyOf (replyPayload "") = geminiFallback := by decide

example : aiReplyOf J.null = geminiFallback := by decide

/-! Field projections of each handler, for the unchanged fields. -/
@[simp] lemma render_conversation (s : AppState) : (render s).conversation = s.conversation := rfl
@[simp] lemma render_userText (s : AppState) : (render s).userText = s.userText := rfl
@[simp] lemma render_aiText (s : AppState) : (render s).aiText = s.aiText := rfl
@[simp] lemma render_questionCount (s : AppState) : (render s).questionCount = s.questionCount := rfl
@[simp] lemma render_isProcessing (s : AppState) : (render s).isProcessing = s.isProcessing := rfl
@[simp] lemma render_isInterviewActive (s : AppState) : (render s).isInterviewActive = s.isInterviewActive := rfl
@[simp] lemma render_hasRecognition (s : AppState) : (render s).hasRecognition = s.hasRecognition := rfl
@[simp] lemma render_armedListeners (s : AppState) : (render s).armedListeners = s.armedListeners := rfl
@[simp] lemma render_speechQueue (s : AppState) : (render s).speechQueue = s.speechQueue := rfl
@[simp] lemma render_pendingTimers (s : AppState) : (render s).pendingTimers = s.pendingTimers := rfl
@[simp] lemma render_inFlightReqs (s : AppState) : (render s).inFlightReqs = s.inFlightReqs := rfl
@[simp] lemma render_requestLog (s : AppState) : (render s).requestLog = s.requestLog := rfl
@[simp] lemma stopListening_conversation (env : Renv) (s : AppState) : (stopListening env s).conversation = s.conversation := by
  unfold stopListening
  split_ifs <;> rfl
@[simp] lemma stopListening_userText (env : Renv) (s : AppState) : (stopListening env s).userText = s.userText := by
  unfold stopListening
  split_ifs <;> rfl
@[simp] lemma stopListening_aiText (env : Renv) (s : AppState) : (stopListening env s).aiText = s.aiText := by
  unfold stopListening
  split_ifs <;> rfl
@[simp] lemma stopListening_questionCount (env : Renv) (s : AppState) : (stopListening env s).questionCount = s.questionCount := by
  unfold stopListening
  split_ifs <;> rfl
@[simp] lemma stopListening_isProcessing (env : Renv) (s : AppState) : (stopListening env s).isProcessing = s.isProcessing := by
  unfold stopListening
  split_ifs <;> rfl
@[simp] lemma stopListening_isInterviewActive (env : Renv) (s : AppState) : (stopListening env s).isInterviewActive = s.isInterviewActive := by
  unfold stopListening
  split_ifs <;> rfl
@[simp] lemma stopListening_hasRecognition (env : Renv) (s : AppState) : (stopListening env s).hasRecognition = s.hasRecognition := by
  unfold stopListening
  split_ifs <;> rfl
@[simp] lemma stopListening_currentRid (env : Renv) (s : AppState) : (stopListening env s).currentRid = s.currentRid := by
  unfold stopListening
  split_ifs <;> rfl
@[simp] lemma stopListening_speechQueue (env : Renv) (s : AppState) : (stopListening env s).speechQueue = s.speechQueue := by
  unfold stopListening
  split_ifs <;> rfl
@[simp] lemma stopListening_pendingTimers (env : Renv) (s : AppState) : (stopListening env s).pendingTimers = s.pendingTimers := by
  unfold stopListening
  split_ifs <;> rfl
@[simp] lemma stopListening_inFlightReqs (env : Renv) (s : AppState) : (stopListening env s).inFlightReqs = s.inFlightReqs := by
  unfold stopListening
  split_ifs <;> rfl
@[simp] lemma stopListening_requestLog (env : Renv) (s : AppState) : (stopListening env s).requestLog = s.requestLog := by
  unfold stopListening
  split_ifs <;> rfl
@[simp] lemma startListening_conversation (env : Renv) (s : AppState) : (startListening env s).conversation = s.conversation := by
  unfold startListening
  split_ifs <;> rfl
@[simp] lemma startListening_userText (env : Renv) (s : AppState) : (startListening env s).userText = s.userText := by
  unfold startListening
  split_ifs <;> rfl
@[simp] lemma startListening_aiText (env : Renv) (s : AppState) : (startListening env s).aiText = s.aiText := by
  unfold startListening
  split_ifs <;> rfl
@[simp] lemma startListening_questionCount (env : Renv) (s : AppState) : (startListening env s).questionCount = s.questionCount := by
  unfold startListening
  split_ifs <;> rfl
@[simp] lemma startListening_isProcessing (env : Renv) (s : AppState) : (startListening env s).isProcessing = s.isProcessing := by
  unfold startListening
  split_ifs <;> rfl
@[simp] lemma startListening_isInterviewActive (env : Renv) (s : AppState) : (startListening env s).isInterviewActive = s.isInterviewActive := by
  unfold startListening
  split_ifs <;> rfl
@[simp] lemma startListening_hasRecognition (env : Renv) (s : AppState) : (startListening env s).hasRecognition = s.hasRecognition := by
  unfold startListening
  split_ifs <;> rfl
@[simp] lemma startListening_currentRid (env : Renv) (s : AppState) : (startListening env s).currentRid = s.currentRid := by
  unfold startListening
  split_ifs <;> rfl
@[simp] lemma startListening_speechQueue (env : Renv) (s : AppState) : (startListening env s).speechQueue = s.speechQueue := by
  unfold startListening
  split_ifs <;> rfl
@[simp] lemma startListening_pendingTimers (env : Renv) (s : AppState) : (startListening env s).pendingTimers = s.pendingTimers := by
  unfold startListening
  split_ifs <;> rfl
@[simp] lemma startListening_inFlightReqs (env : Renv) (s : AppState) : (startListening env s).inFlightReqs = s.inFlightReqs := by
  unfold startListening
  split_ifs <;> rfl
@[simp] lemma startListening_requestLog (env : Renv) (s : AppState) : (startListening env s).requestLog = s.requestLog := by
  unfold startListening
  split_ifs <;> rfl
@[simp] lemma speak_conversation (env : Renv) (t : String) (s : AppState) : (speak env t s).conversation = s.conversation := by
  unfold speak stopListening
  split_ifs <;> rfl
@[simp] lemma speak_userText (env : Renv) (t : String) (s : AppState) : (speak env t s).userText = s.userText := by
  unfold speak stopListening
  split_ifs <;> rfl
@[simp] lemma speak_aiText (env : Renv) (t : String) (s : AppState) : (speak env t s).aiText = s.aiText := by
  unfold speak stopListening
  split_ifs <;> rfl
@[simp] lemma speak_questionCount (env : Renv) (t : String) (s : AppState) : (speak env t s).questionCount = s.questionCount := by
  unfold speak stopListening
  split_ifs <;> rfl
@[simp] lemma speak_isProcessing (env : Renv) (t : String) (s : AppState) : (speak env t s).isProcessing = s.isProcessing := by
  unfold speak stopListening
  split_ifs <;> rfl
@[simp] lemma speak_isInterviewActive (env : Renv) (t : String) (s : AppState) : (speak env t s).isInterviewActive = s.isInterviewActive := by
  unfold speak stopListening
  split_ifs <;> rfl
@[simp] lemma speak_hasRecognition (env : Renv) (t : String) (s : AppState) : (speak env t s).hasRecognition = s.hasRecognition := by
  unfold speak stopListening
  split_ifs <;> rfl
@[simp] lemma speak_currentRid (env : Renv) (t : String) (s : AppState) : (speak env t s).currentRid = s.currentRid := by
  unfold speak stopListening
  split_ifs <;> rfl
@[simp] lemma speak_pendingTimers (env : Renv) (t : String) (s : AppState) : (speak env t s).pendingTimers = s.pendingTimers := by
  unfold speak stopListening
  split_ifs <;> rfl
@[simp] lemma speak_inFlightReqs (env : Renv) (t : String) (s : AppState) : (speak env t s).inFlightReqs = s.inFlightReqs := by
  unfold speak stopListening
  split_ifs <;> rfl
@[simp] lemma speak_requestLog (env : Renv) (t : String) (s : AppState) : (speak env t s).requestLog = s.requestLog := by
  unfold speak stopListening
  split_ifs <;> rfl
@[simp] lemma sendToGemini_conversation (env : Renv) (t : String) (s : AppState) : (sendToGemini env t s).conversation = s.conversation := by
  unfold sendToGemini
  split_ifs <;> rfl
@[simp] lemma sendToGemini_userText (env : Renv) (t : String) (s : AppState) : (sendToGemini env t s).userText = s.userText := by
  unfold sendToGemini
  split_ifs <;> rfl
@[simp] lemma sendToGemini_aiText (env : Renv) (t : String) (s : AppState) : (sendToGemini env t s).aiText = s.aiText := by
  unfold sendToGemini
  split_ifs <;> rfl
@[simp] lemma sendToGemini_questionCount (env : Renv) (t : String) (s : AppState) : (sendToGemini env t s).questionCount = s.questionCount := by
  unfold sendToGemini
  split_ifs <;> rfl
@[simp] lemma sendToGemini_isInterviewActive (env : Renv) (t : String) (s : AppState) : (sendToGemini env t s).isInterviewActive = s.isInterviewActive := by
  unfold sendToGemini
  split_ifs <;> rfl
@[simp] lemma sendToGemini_hasRecognition (env : Renv) (t : String) (s : AppState) : (sendToGemini env t s).hasRecognition = s.hasRecognition := by
  unfold sendToGemini
  split_ifs <;> rfl
@[simp] lemma sendToGemini_currentRid (env : Renv) (t : String) (s : AppState) : (sendToGemini env t s).currentRid = s.currentRid := by
  unfold sendToGemini
  split_ifs <;> rfl
@[simp] lemma sendToGemini_armedListeners (env : Renv) (t : String) (s : AppState) : (sendToGemini env t s).armedListeners = s.armedListeners := by
  unfold sendToGemini
  split_ifs <;> rfl
@[simp] lemma sendToGemini_speechQueue (env : Renv) (t : String) (s : AppState) : (sendToGemini env t s).speechQueue = s.speechQueue := by
  unfold sendToGemini
  split_ifs <;> rfl
@[simp] lemma sendToGemini_pendingTimers (env : Renv) (t : String) (s : AppState) : (sendToGemini env t s).pendingTimers = s.pendingTimers := by
  unfold sendToGemini
  split_ifs <;> rfl
@[simp] lemma utteranceEnd_conversation (s : AppState) : (utteranceEnd s).conversation = s.conversation := by
  unfold utteranceEnd
  split
  · rfl
  · dsimp only
    split_ifs <;> rfl
@[simp] lemma utteranceEnd_userText (s : AppState) : (utteranceEnd s).userText = s.userText := by
  unfold utteranceEnd
  split
  · rfl
  · dsimp only
    split_ifs <;> rfl
@[simp] lemma utteranceEnd_aiText (s : AppState) : (utteranceEnd s).aiText = s.aiText := by
  unfold utteranceEnd
  split
  · rfl
  · dsimp only
    split_ifs <;> rfl
@[simp] lemma utteranceEnd_questionCount (s : AppState) : (utteranceEnd s).questionCount = s.questionCount := by
  unfold utteranceEnd
  split
  · rfl
  · dsimp only
    split_ifs <;> rfl
@[simp] lemma utteranceEnd_isProcessing (s : AppState) : (utteranceEnd s).isProcessing = s.isProcessing := by
  unfold utteranceEnd
  split
  · rfl
  · dsimp only
    split_ifs <;> rfl
@[simp] lemma utteranceEnd_isInterviewActive (s : AppState) : (utteranceEnd s).isInterviewActive = s.isInterviewActive := by
  unfold utteranceEnd
  split
  · rfl
  · dsimp only
    split_ifs <;> rfl
@[simp] lemma utteranceEnd_hasRecognition (s : AppState) : (utteranceEnd s).hasRecognition = s.hasRecognition := by
  unfold utteranceEnd
  split
  · rfl
  · dsimp only
    split_ifs <;> rfl
@[simp] lemma utteranceEnd_currentRid (s : AppState) : (utteranceEnd s).currentRid = s.currentRid := by
  unfold utteranceEnd
  split
  · rfl
  · dsimp only
    split_ifs <;> rfl
@[simp] lemma utteranceEnd_armedListeners (s : AppState) : (utteranceEnd s).armedListeners = s.armedListeners := by
  unfold utteranceEnd
  split
  · rfl
  · dsimp only
    split_ifs <;> rfl
@[simp] lemma utteranceEnd_inFlightReqs (s : AppState) : (utteranceEnd s).inFlightReqs = s.inFlightReqs := by
  unfold utteranceEnd
  split
  · rfl
  · dsimp only
    split_ifs <;> rfl
@[simp] lemma utteranceEnd_requestLog (s : AppState) : (utteranceEnd s).requestLog = s.requestLog := by
  unfold utteranceEnd
  split
  · rfl
  · dsimp only
    split_ifs <;> rfl
@[simp] lemma timerFire_conversation (s : AppState) : (timerFire s).conversation = s.conversation := by
  unfold timerFire startListening
  split
  · rfl
  · split_ifs <;> rfl
@[simp] lemma timerFire_userText (s : AppState) : (timerFire s).userText = s.userText := by
  unfold timerFire startListening
  split
  · rfl
  · split_ifs <;> rfl
@[simp] lemma timerFire_aiText (s : AppState) : (timerFire s).aiText = s.aiText := by
  unfold timerFire startListening
  split
  · rfl
  · split_ifs <;> rfl
@[simp] lemma timerFire_questionCount (s : AppState) : (timerFire s).questionCount = s.questionCount := by
  unfold timerFire startListening
  split
  · rfl
  · split_ifs <;> rfl
@[simp] lemma timerFire_isProcessing (s : AppState) : (timerFire s).isProcessing = s.isProcessing := by
  unfold timerFire startListening
  split
  · rfl
  · split_ifs <;> rfl
@[simp] lemma timerFire_isInterviewActive (s : AppState) : (timerFire s).isInterviewActive = s.isInterviewActive := by
  unfold timerFire startListening
  split
  · rfl
  · split_ifs <;> rfl
@[simp] lemma timerFire_hasRecognition (s : AppState) : (timerFire s).hasRecognition = s.hasRecognition := by
  unfold timerFire startListening
  split
  · rfl
  · split_ifs <;> rfl
@[simp] lemma timerFire_currentRid (s : AppState) : (timerFire s).currentRid = s.currentRid := by
  unfold timerFire startListening
  split
  · rfl
  · split_ifs <;> rfl
@[simp] lemma timerFire_speechQueue (s : AppState) : (timerFire s).speechQueue = s.speechQueue := by
  unfold timerFire startListening
  split
  · rfl
  · split_ifs <;> rfl
@[simp] lemma timerFire_inFlightReqs (s : AppState) : (timerFire s).inFlightReqs = s.inFlightReqs := by
  unfold timerFire startListening
  split
  · rfl
  · split_ifs <;> rfl
@[simp] lemma timerFire_requestLog (s : AppState) : (timerFire s).requestLog = s.requestLog := by
  unfold timerFire startListening
  split
  · rfl
  · split_ifs <;> rfl

lemma onResult_none (i : Nat) (t : String) (s : AppState)
    (hl : s.armedListeners.get? i = none) : onResult i t s = s := by
  unfold onResult
  rw [hl]

lemma onResult_some (i : Nat) (t : String) (s : AppState) (l : Renv)
    (hl : s.armedListeners.get? i = some l) :
    onResult i t s = sendToGemini l t (stopListening l { s with userText := t }) := by
  unfold onResult
  rw [hl]

lemma geminiRespond_nothing (i : Nat) (o : FetchOutcome) (s : AppState)
    (hreq : s.inFlightReqs.get? i = none) : geminiRespond i o s = s := by
  unfold geminiRespond
  rw [hreq]

lemma geminiRespond_some (i : Nat) (o : FetchOutcome) (s : AppState) (req : Req)
    (hreq : s.inFlightReqs.get? i = some req) :
    geminiRespond i o s =
      geminiContinue req o { s with inFlightReqs := s.inFlightReqs.eraseIdx i } := by
  unfold geminiRespond
  rw [hreq]

lemma geminiContinue_ok (req : Req) (data : J) (s : AppState) :
    geminiContinue req (FetchOutcome.ok data) s =
      { speak req.env (aiReplyOf data)
          { s with conversation := req.updated ++ [⟨Role.model, aiReplyOf data⟩],
                   aiText := aiReplyOf data,
                   questionCount := s.questionCount + 1 } with
        isProcessing := false } := rfl

lemma geminiContinue_error (req : Req) (s : AppState) :
    geminiContinue req FetchOutcome.error s = { s with isProcessing := false } := rfl


/-- Claim C1: code bug.  The claim states the spec's intended five-question
limit (the `questionCount < 5` guard and the "Stop after 5 total questions"
instruction make the intent plain), but the code misses it: `utterance.onend`
reads the `questionCount` captured by the render that armed the listener —
1 in the steady flow — so listening is rescheduled forever and a sixth
question is counted while the session is active.  Evaluation at the failing
trace (Start pressed twice, then five full turns from a fresh page). -/
theorem claim_C1_turn_limit_overrun :
    (run initState c1Trace).questionCount = 6 ∧
    (run initState c1Trace).isInterviewActive = true := by
  decide

/-- Claim C2 counterexample: on a thrown transport/parse error (the `catch`
branch) the handler neither records nor displays the fallback line and the
turn counter does not advance — contradicting the claim that a thrown error
still yields the fallback reply and a counter increment. -/
theorem claim_C2_cex_thrown_error_is_silent :
    (step errorTurnState (Ev.respond 0 FetchOutcome.error)).questionCount = 1 ∧
    (step errorTurnState (Ev.respond 0 FetchOutcome.error)).aiText = "Opening question" ∧
    (step errorTurnState (Ev.respond 0 FetchOutcome.error)).aiText ≠
      "Sorry, I couldn't understand." ∧
    (step errorTurnState (Ev.respond 0 FetchOutcome.error)).conversation = [] := by
  decide

/-- Claim C2 amended: a response that parses but lacks the expected text path
is replaced by the fixed fallback line, recorded (with the issuing render's
snapshot transcript), displayed and counted, and the step does not crash; a
thrown transport or parse error is caught silently — nothing is recorded or
displayed, the counter does not advance, and only the busy flag and the
settled in-flight entry are cleared (plus the re-render), so a later turn is
still possible. -/
theorem claim_C2_amended_fallback_only_for_parsed (s : AppState) (i : Nat)
    (req : Req) (data : J) (hreq : s.inFlightReqs.get? i = some req)
    (hmiss : extractTextField data = none) :
    ((step s (Ev.respond i (FetchOutcome.ok data))).aiText = geminiFallback ∧
     (step s (Ev.respond i (FetchOutcome.ok data))).conversation =
       req.updated ++ [⟨Role.model, geminiFallback⟩] ∧
     (step s (Ev.respond i (FetchOutcome.ok data))).questionCount =
       s.questionCount + 1 ∧
     (step s (Ev.respond i (FetchOutcome.ok data))).isProcessing = false) ∧
    step s (Ev.respond i FetchOutcome.error) =
      render { s with inFlightReqs := s.inFlightReqs.eraseIdx i,
                      isProcessing := false } := by
  have hr : aiReplyOf data = geminiFallback := by
    unfold aiReplyOf
    rw [hmiss]
  constructor
  · show (render (geminiRespond i _ s)).aiText = _ ∧
        (render (geminiRespond i _ s)).conversation = _ ∧
        (render (geminiRespond i _ s)).questionCount = _ ∧
        (render (geminiRespond i _ s)).isProcessing = _
    rw [geminiRespond_some i _ s req hreq, geminiContinue_ok]
    simp [hr]
  · show render (geminiRespond i _ s) = _
    rw [geminiRespond_some i _ s req hreq, geminiContinue_error]

theorem claim_C2_amended_fallback_only_for_parsed_witness :
    (step errorTurnState (Ev.respond 0 (FetchOutcome.ok J.null))).aiText =
      geminiFallback ∧
    (step errorTurnState (Ev.respond 0 (FetchOutcome.ok J.null))).questionCount =
      errorTurnState.questionCount + 1 ∧
    step errorTurnState (Ev.respond 0 FetchOutcome.error) =
      render { errorTurnState with
        inFlightReqs := errorTurnState.inFlightReqs.eraseIdx 0,
        isProcessing := false } :=
  ⟨(claim_C2_amended_fallback_only_for_parsed errorTurnState 0
      ⟨activeSnap, [⟨Role.user, "hi"⟩]⟩ J.null rfl rfl).1.1,
   (claim_C2_amended_fallback_only_for_parsed errorTurnState 0
      ⟨activeSnap, [⟨Role.user, "hi"⟩]⟩ J.null rfl rfl).1.2.2.1,
   (claim_C2_amended_fallback_only_for_parsed errorTurnState 0
      ⟨activeSnap, [⟨Role.user, "hi"⟩]⟩ J.null rfl rfl).2⟩

/-- Claim C3 counterexample: after the restart timer has armed an earlier
render's recognition instance, pressing stop deactivates and forces the
counter to 5 but does NOT stop listening — `recognition?.stop()` acts on the
clicked render's never-started instance, and the armed instance survives. -/
theorem claim_C3_cex_mic_survives_stop :
    (run initState c3Trace).isInterviewActive = false ∧
    (run initState c3Trace).questionCount = 5 ∧
    (run initState c3Trace).armedListeners.length = 1 := by
  decide

/-- Claim C3 amended: stop from any state deactivates the session, cancels
any queued speech output, forces the turn counter to 5, and sets the
displayed status text to exactly "Interview ended. Thank you!"; but it stops
only the current render's recognition instance, so an instance armed by an
earlier render keeps listening. -/
theorem claim_C3_amended_stop_force_ends (s : AppState)
    (hr : s.hasRecognition = true) :
    (stopInterview s).isInterviewActive = false ∧
    (stopInterview s).speechQueue = [] ∧
    (stopInterview s).questionCount = 5 ∧
    (stopInterview s).aiText = "Interview ended. Thank you!" ∧
    (stopInterview s).armedListeners =
      s.armedListeners.filter (fun l => l.rid != s.currentRid) := by
  unfold stopInterview stopListening envOf
  simp [hr, interviewEndedText]

theorem claim_C3_amended_stop_force_ends_witness :
    listeningState.hasRecognition = true ∧
    (stopInterview listeningState).isInterviewActive = false ∧
    (stopInterview listeningState).armedListeners =
      listeningState.armedListeners.filter
        (fun l => l.rid != listeningState.currentRid) :=
  ⟨rfl, (claim_C3_amended_stop_force_ends listeningState rfl).1,
   (claim_C3_amended_stop_force_ends listeningState rfl).2.2.2.2⟩

/-- Claim C4: code bug.  The claim states the spec's intended opening
(`Idle --start--> Speaking`: the opening question is spoken), and the code
plainly tries (`speak(firstQuestion)` right after activating), but from any
inactive prior state the click runs the pre-click render's `speak`, whose
captured `isInterviewActive` is still false, so the opening question is
displayed yet never spoken.  Evaluation at the failing input: Start clicked
on a freshly loaded page. -/
theorem claim_C4_opening_never_spoken :
    (step initState Ev.start).speechQueue = [] ∧
    (step initState Ev.start).aiText =
      "Hello! Let's start the interview. Tell me about yourself." ∧
    (step initState Ev.start).conversation = [] ∧
    (step initState Ev.start).questionCount = 1 ∧
    (step initState Ev.start).isInterviewActive = true := by
  decide

/-- Claim C5: a response payload `{candidates:[{content:{parts:[{text:"Next
question?"}]}}]}` received while the session is active appends exactly one
interviewer turn "Next question?" to the in-flight snapshot transcript and
increments the turn counter by exactly 1 (the reply is also displayed). -/
theorem claim_C5_wellformed_reply (s : AppState) (i : Nat) (req : Req)
    (hreq : s.inFlightReqs.get? i = some req)
    (_hact : s.isInterviewActive = true) :
    (step s (Ev.respond i (FetchOutcome.ok (replyPayload "Next question?")))).conversation =
      req.updated ++ [⟨Role.model, "Next question?"⟩] ∧
    (step s (Ev.respond i (FetchOutcome.ok (replyPayload "Next question?")))).questionCount =
      s.questionCount + 1 ∧
    (step s (Ev.respond i (FetchOutcome.ok (replyPayload "Next question?")))).aiText =
      "Next question?" := by
  have hr : aiReplyOf (replyPayload "Next question?") = "Next question?" := by decide
  show (render (geminiRespond i _ s)).conversation = _ ∧
      (render (geminiRespond i _ s)).questionCount = _ ∧
      (render (geminiRespond i _ s)).aiText = _
  rw [geminiRespond_some i _ s req hreq, geminiContinue_ok]
  simp [hr]

theorem claim_C5_wellformed_reply_witness :
    (step awaitingState
        (Ev.respond 0 (FetchOutcome.ok (replyPayload "Next question?")))).conversation =
      [⟨Role.user, "my answer"⟩] ++ [⟨Role.model, "Next question?"⟩] ∧
    (step awaitingState
        (Ev.respond 0 (FetchOutcome.ok (replyPayload "Next question?")))).questionCount =
      awaitingState.questionCount + 1 ∧
    (step awaitingState
        (Ev.respond 0 (FetchOutcome.ok (replyPayload "Next question?")))).aiText =
      "Next question?" :=
  claim_C5_wellformed_reply awaitingState 0 ⟨activeSnap, [⟨Role.user, "my answer"⟩]⟩
    rfl rfl

/-- Claim C6 counterexample: two requests outstanding at once.  The second
capture is delivered by an instance armed from a render whose snapshot shows
`isProcessing = false`, so its `sendToGemini` passes the busy gate while the
first request is still in flight. -/
theorem claim_C6_cex_two_outstanding_requests :
    (run initState c6Trace).inFlightReqs.length = 2 ∧
    (run initState c6Trace).isProcessing = true := by
  decide

/-- Claim C6 amended: the busy gate reads the capturing render's snapshot:
`sendToGemini` is a no-op when the snapshot that delivers the capture shows
busy (or inactive), and the busy flag stays set until some response settles;
but a capture through an instance whose arming render saw `busy = false`
issues a second overlapping request (see the counterexample). -/
theorem claim_C6_amended_busy_gate (s : AppState) (env : Renv) (t : String)
    (e : Ev) (hsnap : env.isProcessing = true ∨ env.isInterviewActive = false)
    (hcur : s.isProcessing = true) (hne : ∀ i o, e ≠ Ev.respond i o) :
    sendToGemini env t s = s ∧ (step s e).isProcessing = true := by
  constructor
  · unfold sendToGemini
    rcases hsnap with h | h <;> simp [h]
  · cases e with
    | start => simp [step, startInterview, hcur]
    | stop => simp [step, stopInterview, hcur]
    | utterEnd => simp [step, hcur]
    | timer => simp [step, hcur]
    | capture j t2 =>
      have hp : (onResult j t2 s).isProcessing = true := by
        cases hl : s.armedListeners.get? j with
        | none =>
          rw [onResult_none j t2 s hl]
          exact hcur
        | some l =>
          rw [onResult_some j t2 s l hl]
          unfold sendToGemini
          split_ifs <;> simp [hcur]
      simp [step, hp]
    | respond j o => exact absurd rfl (hne j o)

theorem claim_C6_amended_busy_gate_witness :
    sendToGemini busySnap "again" busyState = busyState ∧
    (step busyState Ev.timer).isProcessing = true :=
  ⟨(claim_C6_amended_busy_gate busyState busySnap "again" Ev.timer (Or.inl rfl)
      rfl (fun _ _ h => Ev.noConfusion h)).1,
   (claim_C6_amended_busy_gate busyState busySnap "again" Ev.timer (Or.inl rfl)
      rfl (fun _ _ h => Ev.noConfusion h)).2⟩

set_option maxRecDepth 8192 in
/-- Claim C7 counterexample: the second request's body is the system
instruction plus only the just-captured answer — the prior turns "a1" and
"q2", present in the current transcript, are missing, because the body is
built from the arming render's snapshot of the conversation (still empty). -/
theorem claim_C7_cex_stale_transcript_in_body :
    (run initState c7Trace).requestLog =
      [[systemContent, msgContent ⟨Role.user, "a1"⟩],
       [systemContent, msgContent ⟨Role.user, "a2"⟩]] ∧
    (run initState c7Trace).conversation =
      [⟨Role.user, "a1"⟩, ⟨Role.model, "q2"⟩] := by
  decide

/-- Claim C7 amended: each captured turn issues exactly one request whose
body lists the fixed system instruction first, followed by the ARMING
render's snapshot of the transcript plus the captured turn, oldest first;
since the closure chain keeps reusing that render, from the second turn on
the body omits every turn recorded after it (in the steady flow it carries
only the system prompt and the just-captured answer). -/
theorem claim_C7_amended_request_contents (s : AppState) (i : Nat) (l : Renv)
    (t : String) (hl : s.armedListeners.get? i = some l)
    (hip : l.isProcessing = false) (hact : l.isInterviewActive = true) :
    (step s (Ev.capture i t)).requestLog = s.requestLog ++
      [systemContent :: (l.conversation ++ [(⟨Role.user, t⟩ : Message)]).map msgContent] ∧
    (step s (Ev.capture i t)).inFlightReqs = s.inFlightReqs ++
      [⟨l, l.conversation ++ [(⟨Role.user, t⟩ : Message)]⟩] := by
  show (render (onResult i t s)).requestLog = _ ∧
      (render (onResult i t s)).inFlightReqs = _
  rw [onResult_some i t s l hl]
  unfold sendToGemini
  simp [hip, hact, requestContents]

theorem claim_C7_amended_request_contents_witness :
    (step listeningState (Ev.capture 0 "I am a programmer.")).requestLog =
      listeningState.requestLog ++
        [systemContent :: (listenerSnap.conversation ++
          [(⟨Role.user, "I am a programmer."⟩ : Message)]).map msgContent] ∧
    (step listeningState (Ev.capture 0 "I am a programmer.")).inFlightReqs =
      listeningState.inFlightReqs ++
        [⟨listenerSnap, listenerSnap.conversation ++
          [(⟨Role.user, "I am a programmer."⟩ : Message)]⟩] :=
  claim_C7_amended_request_contents listeningState 0 listenerSnap
    "I am a programmer." rfl rfl rfl

/-- Claim C8 counterexample: the 800 ms timer scheduled before stop fires
after stop and starts recognition although the session is currently inactive
(and not busy) — the callback's guard reads the scheduling render's captured
flags. -/
theorem claim_C8_cex_listen_starts_after_stop :
    (run initState c8Trace).isInterviewActive = false ∧
    (run initState c8Trace).isProcessing = false ∧
    (run initState c8Trace).armedListeners.length = 1 := by
  decide

/-- Claim C8 amended: `startListening` begins listening iff the SCHEDULING
render's captured flags show the session active and not busy (and that
render's instance is not already started); the current session flags are not
consulted, so a leftover timer can start recognition while the session is
currently busy or stopped. -/
theorem claim_C8_amended_listen_guard (env : Renv) (s : AppState) :
    (env.isProcessing = true ∨ env.isInterviewActive = false →
      startListening env s = s) ∧
    (s.hasRecognition = true → env.isProcessing = false →
      env.isInterviewActive = true →
      s.armedListeners.any (fun l => l.rid == env.rid) = false →
      (startListening env s).armedListeners = s.armedListeners ++ [env]) := by
  constructor
  · intro h
    unfold startListening
    rcases h with h | h <;> simp [h]
  · intro hr hip hact hnew
    unfold startListening
    simp [hr, hip, hact, hnew]

theorem claim_C8_amended_listen_guard_witness :
    startListening busySnap initState = initState ∧
    (startListening activeSnap initState).armedListeners =
      initState.armedListeners ++ [activeSnap] :=
  ⟨(claim_C8_amended_listen_guard busySnap initState).1 (Or.inl rfl),
   (claim_C8_amended_listen_guard activeSnap initState).2 rfl rfl rfl rfl⟩

/-- Claim C9 counterexample: a reply that arrives after stop still speaks —
the continuation's `speak` reads the issuing render's captured
`isInterviewActive = true`, so an utterance is queued (and the termination
message is overwritten) although the session is inactive; exactly the open
issue of spec §5/§9. -/
theorem claim_C9_cex_speaks_after_stop :
    (run initState c9Trace).isInterviewActive = false ∧
    (run initState c9Trace).speechQueue.length = 1 ∧
    (run initState c9Trace).aiText = "q2" := by
  decide

/-- Claim C9 amended: `speak(text)` is a no-op iff the `isInterviewActive`
captured by its defining render is false; when that captured flag is true it
first stops that render's own recognition instance and then queues the
utterance.  The current session flag is not consulted, so a model reply
arriving after a forced stop still triggers speech (the counterexample). -/
theorem claim_C9_amended_speak_contract (env : Renv) (t : String) (s : AppState) :
    (env.isInterviewActive = false → speak env t s = s) ∧
    (env.isInterviewActive = true →
      speak env t s = { stopListening env s with
        speechQueue := (stopListening env s).speechQueue ++ [⟨t, env⟩] }) := by
  constructor
  · intro h
    unfold speak
    simp [h]
  · intro h
    unfold speak
    simp [h]

theorem claim_C9_amended_speak_contract_witness :
    speak idleSnap "hello" initState = initState ∧
    speak activeSnap "hello" initState = { stopListening activeSnap initState with
      speechQueue := (stopListening activeSnap initState).speechQueue ++
        [⟨"hello", activeSnap⟩] } :=
  ⟨(claim_C9_amended_speak_contract idleSnap "hello" initState).1 rfl,
   (claim_C9_amended_speak_contract activeSnap "hello" initState).2 rfl⟩

/-- Claim C10: a well-shaped response whose text field is the empty string is
treated like a missing field — the empty string is falsy — so the fallback
line is recorded in the snapshot transcript and displayed instead of the
empty reply, and the counter increments. -/
theorem claim_C10_empty_text_falls_back (s : AppState) (i : Nat) (req : Req)
    (hreq : s.inFlightReqs.get? i = some req) :
    (step s (Ev.respond i (FetchOutcome.ok (replyPayload "")))).aiText =
      "Sorry, I couldn't understand." ∧
    (step s (Ev.respond i (FetchOutcome.ok (replyPayload "")))).conversation =
      req.updated ++ [⟨Role.model, "Sorry, I couldn't understand."⟩] ∧
    (step s (Ev.respond i (FetchOutcome.ok (replyPayload "")))).questionCount =
      s.questionCount + 1 := by
  have hr : aiReplyOf (replyPayload "") = "Sorry, I couldn't understand." := by decide
  show (render (geminiRespond i _ s)).aiText = _ ∧
      (render (geminiRespond i _ s)).conversation = _ ∧
      (render (geminiRespond i _ s)).questionCount = _
  rw [geminiRespond_some i _ s req hreq, geminiContinue_ok]
  simp [hr]

theorem claim_C10_empty_text_falls_back_witness :
    (step awaitingState (Ev.respond 0 (FetchOutcome.ok (replyPayload "")))).aiText =
      "Sorry, I couldn't understand." ∧
    (step awaitingState (Ev.respond 0 (FetchOutcome.ok (replyPayload "")))).conversation =
      [⟨Role.user, "my answer"⟩] ++ [⟨Role.model, "Sorry, I couldn't understand."⟩] ∧
    (step awaitingState (Ev.respond 0 (FetchOutcome.ok (replyPayload "")))).questionCount =
      awaitingState.questionCount + 1 :=
  claim_C10_empty_text_falls_back awaitingState 0
    ⟨activeSnap, [⟨Role.user, "my answer"⟩]⟩ rfl

end MIBot

